import Mathlib

/-!
Verification of the bn-tc telemetry firmware (tc-firmware) against its
natural-language specification.

The C sources under tc-firmware/main are shallowly embedded below:
floats are modelled as exact rationals, C integer casts as explicit
truncation and wrap-around, the two event-driven handlers of
tc_network.c as pure state transformers on a record mirroring the
static context struct, and printf-style formatting as list-of-digit
rendering.  The consumer-side decoder (tc-cloud) and the establishment
gate of the current main are not present in the source tree; those two
definitions are modelled from the spec and marked as such.
-/

/-! ## C scalar conversions, modelled over the rationals -/

/-- C cast of a float to a signed integer: truncation toward zero
(floor for nonnegative values, ceiling for negative ones).  The float
arithmetic of the firmware is modelled with exact rationals. -/
def truncQ (x : ℚ) : ℤ := if 0 ≤ x then ⌊x⌋ else ⌈x⌉

/-- C cast `(uint8_t)` of a float value: truncate toward zero, then wrap
modulo 256 (the conversion is undefined behaviour in C for out-of-range
values; wrap-around is the modelling choice, and every claim below is
evaluated on in-range inputs where no wrapping occurs). -/
def u8Q (x : ℚ) : ℕ := ((truncQ x) % (256 : ℤ)).toNat

/-- C cast `(uint8_t)` of a `short` value. -/
def u8_of_short (b : ℤ) : ℕ := (b % (256 : ℤ)).toNat

/-! ## Payload codec (main.c) -/

/-- payload_t from main.c: latitude/longitude floats, battery `short`,
and a `time_t` timestamp. -/
structure payload_t where
  latitude : ℚ
  longitude : ℚ
  battery_percentage : ℤ
  timestamp : ℤ
deriving DecidableEq

/-- _encode_payload from main.c, lines 28-46: packs
[lat integral, lat fractional, lng integral, lng fractional, battery]
into the low 40 bits of a machine word. -/
def _encode_payload (p : payload_t) : ℕ :=
  let lat_integral := u8Q p.latitude
  let lat_fractional := u8Q ((p.latitude - (lat_integral : ℚ)) * 100)
  let lng_integral := u8Q p.longitude
  let lng_fractional := u8Q ((p.longitude - (lng_integral : ℚ)) * 100)
  let battery_percentage := u8_of_short p.battery_percentage
  ((((lat_integral <<< 32) ||| (lat_fractional <<< 24)) ||| (lng_integral <<< 16) |||
      (lng_fractional <<< 8)) ||| battery_percentage) &&& 0xFFFFFFFFFF

/-- Rounding to the nearest integer (half rounded up), as used by the
wire-contract formula `round(...)` of the spec and the firmware README. -/
def roundQ (x : ℚ) : ℤ := ⌊x + 1 / 2⌋

/-- Clamp an integer to the uint16 range [0, 65535]. -/
def clamp_u16 (z : ℤ) : ℕ := (max 0 (min z 65535)).toNat

/-- Scaled-uint16 encoder written from the words of spec section 4.2
(the canonical wire contract, also in the README section appended to
main.c); kept separate from the source embedding `_encode_payload` so
the two can be compared. -/
def encode_spec (p : payload_t) : ℕ :=
  clamp_u16 (roundQ ((p.latitude + 90) / 180 * 65535)) * 2 ^ 24 +
    clamp_u16 (roundQ ((p.longitude + 180) / 360 * 65535)) * 2 ^ 8 +
    (max 0 (min p.battery_percentage 255)).toNat

/-- Modelled from the spec: the consumer-side decode of section 4.2.
The tc-cloud decoder source (main.py) is not under src/, only its
README; the spec gives the exact inverse mapping
latitude = lat_u16/65535*180 - 90, longitude = lon_u16/65535*360 - 180,
batteryPercent = byte 4, applied to the five bytes of the record. -/
def decode_spec (n : ℕ) : ℚ × ℚ × ℕ :=
  let lat_u16 : ℕ := n / 2 ^ 24 % 2 ^ 16
  let lon_u16 : ℕ := n / 2 ^ 8 % 2 ^ 16
  let battery : ℕ := n % 2 ^ 8
  ((lat_u16 : ℚ) / 65535 * 180 - 90, (lon_u16 : ℚ) / 65535 * 360 - 180, battery)

/-! ## printf-style zero-padded rendering -/

/-- Uppercase digit character for one digit value (0-9, A-F). -/
def digitCharUpper (n : ℕ) : Char :=
  if n < 10 then Char.ofNat (48 + n) else Char.ofNat (55 + n)

/-- Digits of n in the given base, most significant first; fuel-driven
recursion so that the definition reduces by evaluation. -/
def digitsAux (base : ℕ) : ℕ → ℕ → List Char
  | 0, _ => []
  | fuel + 1, n =>
    if n < base then [digitCharUpper n]
    else digitsAux base fuel (n / base) ++ [digitCharUpper (n % base)]

/-- sprintf with a `%0wX` conversion: uppercase hex, zero-padded to
width w. -/
def fmt0X (w n : ℕ) : String :=
  let ds := digitsAux 16 (n + 1) n
  String.mk (List.replicate (w - ds.length) '0' ++ ds)

/-- sprintf with a `%0wd` conversion: decimal, zero-padded to width w. -/
def fmt0d (w n : ℕ) : String :=
  let ds := digitsAux 10 (n + 1) n
  String.mk (List.replicate (w - ds.length) '0' ++ ds)

/-- The sixteen uppercase hexadecimal digit characters. -/
def HEX_CHARS : List Char :=
  ['0', '1', '2', '3', '4', '5', '6', '7', '8', '9', 'A', 'B', 'C', 'D', 'E', 'F']

/-- Whether a character is an uppercase hexadecimal digit. -/
def isHexUpper (c : Char) : Bool := HEX_CHARS.contains c

/-! ## JSON envelope (main.c `_create_json_payload`) -/

/-- Calendar fields of `struct tm`, as filled by localtime_r. -/
structure Tm where
  tm_year : ℕ
  tm_mon : ℕ
  tm_mday : ℕ
  tm_hour : ℕ
  tm_min : ℕ
  tm_sec : ℕ
deriving DecidableEq

/-- The JSON object built by _create_json_payload: four string fields.
cJSON serialization to text is not modelled; the envelope is handled
as a value. -/
structure Envelope where
  id : String
  payload : String
  date : String
  time : String
deriving DecidableEq

/-- _create_json_payload from main.c, lines 54-93: id, the encoded
payload rendered with "%010llX", and date/time from the local calendar
form of the timestamp ("%04d-%02d-%02d" and "%02d:%02d:%02d"). -/
def _create_json_payload (device_str : String) (p : payload_t) (tm_s : Tm) : Envelope :=
  { id := device_str
    payload := fmt0X 10 (_encode_payload p)
    date := fmt0d 4 (tm_s.tm_year + 1900) ++ "-" ++ fmt0d 2 (tm_s.tm_mon + 1) ++ "-" ++
      fmt0d 2 tm_s.tm_mday
    time := fmt0d 2 tm_s.tm_hour ++ ":" ++ fmt0d 2 tm_s.tm_min ++ ":" ++ fmt0d 2 tm_s.tm_sec }

/-! ## Device identity (tc_hal.c) -/

/-- The 48-bit accumulator built by the loop in tc_get_device_str,
tc_hal.c lines 25-29: device_id |= mac[i] << ((5-i)*8) for i = 5..0. -/
def tc_device_id (mac : Fin 6 → Fin 256) : ℕ :=
  (((((((0 : ℕ) ||| ((mac 5 : ℕ) <<< 0)) ||| ((mac 4 : ℕ) <<< 8)) |||
      ((mac 3 : ℕ) <<< 16)) ||| ((mac 2 : ℕ) <<< 24)) |||
      ((mac 1 : ℕ) <<< 32)) ||| ((mac 0 : ℕ) <<< 40))

/-- tc_get_device_str from tc_hal.c, lines 15-34 (success path of the
efuse MAC read): sprintf(device_str, "ESP32_%06llX", device_id & 0xFFFFFF). -/
def tc_get_device_str (mac : Fin 6 → Fin 256) : String :=
  "ESP32_" ++ fmt0X 6 (tc_device_id mac &&& 0xFFFFFF)

/-! ## Network state machine (tc_network.c) -/

/-- ESP-IDF error codes used by the embedded functions. -/
inductive EspErr
  | ok
  | fail
  | invalidState
deriving DecidableEq

/-- wifi_status_t from tc_network.c. -/
inductive wifi_status_t
  | uninitd
  | initd
  | connecting
  | connected
deriving DecidableEq

/-- mqtt_status_t from tc_network.c. -/
inductive mqtt_status_t
  | uninit
  | init
  | connected
deriving DecidableEq

/-- The static context struct of tc_network.c, flattened.  The one-shot
esp timer is modelled by the delay (in microseconds) it was last armed
with; established_count counts invocations of the established callback. -/
structure NetContext where
  wifi_status : wifi_status_t
  connect_retries : ℕ
  sta_ip : String
  connect_timer : Option ℕ
  mqtt_state : mqtt_status_t
  sntp_started : Bool
  established_count : ℕ
deriving DecidableEq

/-- The initializer of the context struct in tc_network.c. -/
def initial_context : NetContext :=
  { wifi_status := .uninitd
    connect_retries := 0
    sta_ip := ""
    connect_timer := none
    mqtt_state := .uninit
    sntp_started := false
    established_count := 0 }

/-- __wifi_get_next_connect from tc_network.c, lines 314-318: delay in
microseconds before the next association attempt. -/
def __wifi_get_next_connect (connect_retries : ℕ) : ℕ :=
  connect_retries * 2 * 1000000

/-- The wifi events dispatched to __wifi_event_sta_handler. -/
inductive WifiEvent
  | staStart
  | staDisconnected
  | gotIp (ip : String)
deriving DecidableEq

/-- __wifi_event_sta_handler from tc_network.c, lines 325-374, as a pure
state transformer.  On WIFI_EVENT_STA_START the connect timer is armed
and the status becomes connecting; on WIFI_EVENT_STA_DISCONNECTED the
stored address is cleared, the retry counter is incremented, the timer
is re-armed with the new delay, and the status becomes connecting; on
IP_EVENT_STA_GOT_IP the address is stored, the counter resets to zero,
the status becomes connected and SNTP is started; with MQTT enabled the
handler then calls _mqtt_connect (which only starts the client and does
not change the context), otherwise it invokes the established callback. -/
def __wifi_event_sta_handler (mqtt_enabled : Bool) (s : NetContext) : WifiEvent → NetContext
  | .staStart =>
    { s with
      connect_timer := some (__wifi_get_next_connect s.connect_retries)
      wifi_status := .connecting }
  | .staDisconnected =>
    { s with
      sta_ip := ""
      connect_retries := s.connect_retries + 1
      connect_timer := some (__wifi_get_next_connect (s.connect_retries + 1))
      wifi_status := .connecting }
  | .gotIp ip =>
    let s1 :=
      { s with
        sta_ip := ip
        connect_retries := 0
        wifi_status := .connected
        sntp_started := true }
    if mqtt_enabled then s1
    else { s1 with established_count := s1.established_count + 1 }

/-- The MQTT client events dispatched to mqtt_event_handler that touch
the context; every other event only logs. -/
inductive MqttEvent
  | connected
  | disconnected
  | other
deriving DecidableEq

/-- mqtt_event_handler from tc_network.c, lines 151-209: on
MQTT_EVENT_CONNECTED the session state becomes connected and the
established callback fires; on MQTT_EVENT_DISCONNECTED the session
state falls back to MQTT_STATE_INIT. -/
def mqtt_event_handler (s : NetContext) : MqttEvent → NetContext
  | .connected =>
    { s with mqtt_state := .connected, established_count := s.established_count + 1 }
  | .disconnected => { s with mqtt_state := .init }
  | .other => s

/-- tc_network_start from tc_network.c, lines 393-457: rejected with
ESP_ERR_INVALID_STATE unless the wifi status is uninitialized;
otherwise the status becomes WIFI_STAT_INITD and, with MQTT enabled,
_mqtt_init moves the session state from uninit to init. -/
def tc_network_start (mqtt_enabled : Bool) (s : NetContext) : EspErr × NetContext :=
  if s.wifi_status ≠ .uninitd then (.invalidState, s)
  else
    (.ok,
      { s with
        wifi_status := .initd
        mqtt_state :=
          if mqtt_enabled then (if s.mqtt_state = .uninit then .init else s.mqtt_state)
          else s.mqtt_state })

/-- An event delivered to the network unit: either a wifi/ip event or
(in the MQTT build) an MQTT client event. -/
inductive NetEvent
  | wifi (e : WifiEvent)
  | mqttEvt (e : MqttEvent)
deriving DecidableEq

/-- One event-handler step of the network unit. -/
def net_step (mqtt_enabled : Bool) (s : NetContext) : NetEvent → NetContext
  | .wifi e => __wifi_event_sta_handler mqtt_enabled s e
  | .mqttEvt e => if mqtt_enabled then mqtt_event_handler s e else s

/-- The contexts reachable from the initial context through
tc_network_start and the event handlers. -/
inductive Reachable (mqtt_enabled : Bool) : NetContext → Prop
  | init : Reachable mqtt_enabled initial_context
  | start (s : NetContext) :
      Reachable mqtt_enabled s → Reachable mqtt_enabled (tc_network_start mqtt_enabled s).2
  | step (s : NetContext) (e : NetEvent) :
      Reachable mqtt_enabled s → Reachable mqtt_enabled (net_step mqtt_enabled s e)

/-! ## Transport publishes (tc_network.c) -/

/-- A message handed to the underlying transport library.  The body
type is left generic: the publish functions treat the data as opaque. -/
inductive Sent (β : Type)
  | mqttMsg (topic : String) (body : β)
  | httpMsg (body : β)
deriving DecidableEq

/-- tc_mqtt_publish_telemetry from tc_network.c, lines 261-275: publish
is refused with ESP_ERR_INVALID_STATE unless the MQTT session is
connected; otherwise the message is handed to the client once.  The
returned list is everything given to the transport: there is no queue
and no retry, and the context is not modified. -/
def tc_mqtt_publish_telemetry {β : Type} (s : NetContext) (topic : String) (data : β) :
    EspErr × List (Sent β) :=
  if s.mqtt_state ≠ .connected then (.invalidState, [])
  else (.ok, [.mqttMsg topic data])

/-- tc_http_publish_telemetry from tc_network.c, lines 282-306: publish
is refused with ESP_ERR_INVALID_STATE unless the wifi link is
connected; otherwise a fresh request is opened, the body posted once
and the client cleaned up (the underlying client calls are modelled as
succeeding; their error paths do not affect the readiness guard). -/
def tc_http_publish_telemetry {β : Type} (s : NetContext) (data : β) :
    EspErr × List (Sent β) :=
  if s.wifi_status ≠ .connected then (.invalidState, [])
  else (.ok, [.httpMsg data])

/-! ## Telemetry loop (main.c) -/

/-- The environment of one tick: the sensor read results (none models a
failing read, some a successful one), the wall-clock timestamp and its
local calendar form (localtime_r is modelled as part of the input). -/
structure TickInput where
  gps : Option (ℚ × ℚ)
  battery : Option ℤ
  timestamp : ℤ
  tm_s : Tm
deriving DecidableEq

/-- The publish topic prepared in app_main: "tc-bn/telemetry/<device>". -/
def publish_topic (device_str : String) : String := "tc-bn/telemetry/" ++ device_str

/-- loop from main.c, lines 98-118: read the sensors (VERIFY_SUCCESS
returns the error on failure, before any encoding), build the JSON
envelope, and publish over MQTT or HTTP depending on the build flag.
The publish result is discarded by the source, so the success path
returns ESP_OK; the second component lists everything handed to the
transport during the tick. -/
def loop (mqtt_enabled : Bool) (net : NetContext) (device_str : String) (t : TickInput) :
    EspErr × List (Sent Envelope) :=
  match t.gps with
  | none => (.fail, [])
  | some (la, lo) =>
    match t.battery with
    | none => (.fail, [])
    | some b =>
      let p : payload_t :=
        { latitude := la, longitude := lo, battery_percentage := b, timestamp := t.timestamp }
      let env := _create_json_payload device_str p t.tm_s
      if mqtt_enabled then
        (.ok, (tc_mqtt_publish_telemetry net (publish_topic device_str) env).2)
      else (.ok, (tc_http_publish_telemetry net env).2)

/-- The while-true loop of app_main: every tick runs `loop`, the result
is only logged, and the task delays until the next cadence boundary.
The messages of all ticks are concatenated; no tick result can stop the
iteration. -/
def runTicks (mqtt_enabled : Bool) (net : NetContext) (device_str : String) :
    List TickInput → List (Sent Envelope)
  | [] => []
  | t :: ts => (loop mqtt_enabled net device_str t).2 ++ runTicks mqtt_enabled net device_str ts

/-! ## Establishment gate (spec section 4.5) -/

/-- The startup establishment timeout of spec sections 4.5 and 7. -/
def establishTimeoutSeconds : ℕ := 300

/-- Outcome of startup: either the telemetry loop is entered with the
messages it produces, or a full process restart was performed. -/
inductive StartupOutcome
  | running (sent : List (Sent Envelope))
  | restarted
deriving DecidableEq

/-- Modelled from the spec: the EstablishmentGate of section 4.5 and its
consumer.  The current main wires the established callback of
tc_network_start to a one-shot signal and blocks on it for 300 seconds
before the first tick; that main is not under src/ (the main.c present
is an earlier revision calling a tc_wifi_start that no file defines,
while tc_network.c already exposes the callback API with no caller).
signalAt is the second at which the one-shot signal is released, none
if it never is; the second component counts restart invocations. -/
def app_start (mqtt_enabled : Bool) (net : NetContext) (device_str : String)
    (signalAt : Option ℕ) (ticks : List TickInput) : StartupOutcome × ℕ :=
  match signalAt with
  | some t =>
    if t ≤ establishTimeoutSeconds then
      (.running (runTicks mqtt_enabled net device_str ticks), 0)
    else (.restarted, 1)
  | none => (.restarted, 1)

/-- Example MAC address 00:11:22:33:44:55 used by the identity vector. -/
def sample_mac : Fin 6 → Fin 256
  | ⟨0, _⟩ => 0x00
  | ⟨1, _⟩ => 0x11
  | ⟨2, _⟩ => 0x22
  | ⟨3, _⟩ => 0x33
  | ⟨4, _⟩ => 0x44
  | ⟨5, _⟩ => 0x55

/-- The concrete sample of the spec test vector: lat 13.5, lon 100.5,
battery 50. -/
def sample_payload : payload_t :=
  { latitude := 27 / 2, longitude := 201 / 2, battery_percentage := 50, timestamp := 0 }

/-! ## Helper lemmas: disjoint bitwise or is addition -/

/-- For a power-of-two m and B < m, the bitwise or of A * m with B is
their sum: the two operands occupy disjoint bit ranges. -/
theorem lor_eq_add_of_lt (A B m : ℕ) (hm : ∃ k, m = 2 ^ k) (hB : B < m) :
    (A * m) ||| B = A * m + B := by
  obtain ⟨k, rfl⟩ := hm
  apply Nat.eq_of_testBit_eq
  intro i
  rw [Nat.testBit_lor]
  rcases Nat.lt_or_ge i k with h | h
  · have hhi : (A * 2 ^ k).testBit i = false := by
      rw [← Nat.shiftLeft_eq, Nat.testBit_shiftLeft]
      simp [Nat.not_le.mpr h]
    have hsum : (A * 2 ^ k + B).testBit i = B.testBit i := by
      have hmod : (A * 2 ^ k + B) % 2 ^ k = B := by
        rw [Nat.mul_comm A, Nat.mul_add_mod]
        exact Nat.mod_eq_of_lt hB
      conv_rhs => rw [← hmod]
      rw [Nat.testBit_mod_two_pow]
      simp [h]
    rw [hhi, hsum]
    simp
  · have hlo : B.testBit i = false :=
      Nat.testBit_lt_two_pow
        (lt_of_lt_of_le hB (Nat.pow_le_pow_right (by norm_num) h))
    have hexp : (2 : ℕ) ^ i = 2 ^ k * 2 ^ (i - k) := by
      rw [← pow_add]
      congr 1
      omega
    have hdiv1 : (A * 2 ^ k + B) / 2 ^ i = A / 2 ^ (i - k) := by
      rw [hexp, ← Nat.div_div_eq_div_mul, Nat.mul_comm A,
        Nat.mul_add_div (Nat.two_pow_pos k), Nat.div_eq_of_lt hB, Nat.add_zero]
    have hdiv2 : (A * 2 ^ k) / 2 ^ i = A / 2 ^ (i - k) := by
      rw [hexp, ← Nat.div_div_eq_div_mul, Nat.mul_div_cancel _ (Nat.two_pow_pos k)]
    rw [hlo, Nat.testBit_to_div_mod, Nat.testBit_to_div_mod, hdiv1, hdiv2]
    simp

/-- The five-byte packing expression of _encode_payload, rewritten as a
base-256 positional sum. -/
theorem pack5_eq (a b c d e : ℕ) (ha : a < 256) (hb : b < 256) (hc : c < 256)
    (hd : d < 256) (he : e < 256) :
    ((((a <<< 32) ||| (b <<< 24)) ||| (c <<< 16) ||| (d <<< 8)) ||| e) =
      a * 4294967296 + b * 16777216 + c * 65536 + d * 256 + e := by
  have s32 : a <<< 32 = a * 4294967296 := by rw [Nat.shiftLeft_eq]
  have s24 : b <<< 24 = b * 16777216 := by rw [Nat.shiftLeft_eq]
  have s16 : c <<< 16 = c * 65536 := by rw [Nat.shiftLeft_eq]
  have s08 : d <<< 8 = d * 256 := by rw [Nat.shiftLeft_eq]
  rw [s32, s24, s16, s08]
  have h1 : a * 4294967296 ||| b * 16777216 = a * 4294967296 + b * 16777216 :=
    lor_eq_add_of_lt a (b * 16777216) 4294967296 ⟨32, by norm_num⟩ (by omega)
  rw [h1]
  have h2 : a * 4294967296 + b * 16777216 ||| c * 65536 =
      a * 4294967296 + b * 16777216 + c * 65536 := by
    have hfac : a * 4294967296 + b * 16777216 = (a * 256 + b) * 16777216 := by ring
    rw [hfac, lor_eq_add_of_lt (a * 256 + b) (c * 65536) 16777216 ⟨24, by norm_num⟩ (by omega)]
  rw [h2]
  have h3 : a * 4294967296 + b * 16777216 + c * 65536 ||| d * 256 =
      a * 4294967296 + b * 16777216 + c * 65536 + d * 256 := by
    have hfac : a * 4294967296 + b * 16777216 + c * 65536 =
        (a * 65536 + b * 256 + c) * 65536 := by ring
    rw [hfac, lor_eq_add_of_lt (a * 65536 + b * 256 + c) (d * 256) 65536 ⟨16, by norm_num⟩
      (by omega)]
  rw [h3]
  have hfac : a * 4294967296 + b * 16777216 + c * 65536 + d * 256 =
      (a * 16777216 + b * 65536 + c * 256 + d) * 256 := by ring
  rw [hfac, lor_eq_add_of_lt (a * 16777216 + b * 65536 + c * 256 + d) e 256 ⟨8, by norm_num⟩ he]

/-- The uint8 cast of a float is below 256. -/
theorem u8Q_lt (x : ℚ) : u8Q x < 256 := by
  unfold u8Q
  have h1 := Int.emod_lt_of_pos (truncQ x) (show (0 : ℤ) < 256 by norm_num)
  have h2 := Int.emod_nonneg (truncQ x) (show (256 : ℤ) ≠ 0 by norm_num)
  omega

/-- The uint8 cast of a short is below 256. -/
theorem u8_of_short_lt (b : ℤ) : u8_of_short b < 256 := by
  unfold u8_of_short
  have h1 := Int.emod_lt_of_pos b (show (0 : ℤ) < 256 by norm_num)
  have h2 := Int.emod_nonneg b (show (256 : ℤ) ≠ 0 by norm_num)
  omega

/-- The 48-bit MAC accumulator as a base-256 positional sum. -/
theorem tc_device_id_eq (mac : Fin 6 → Fin 256) :
    tc_device_id mac =
      (mac 0 : ℕ) * 1099511627776 + (mac 1 : ℕ) * 4294967296 + (mac 2 : ℕ) * 16777216 +
        (mac 3 : ℕ) * 65536 + (mac 4 : ℕ) * 256 + (mac 5 : ℕ) := by
  have b0 := (mac 0).isLt
  have b1 := (mac 1).isLt
  have b2 := (mac 2).isLt
  have b3 := (mac 3).isLt
  have b4 := (mac 4).isLt
  have b5 := (mac 5).isLt
  unfold tc_device_id
  rw [Nat.zero_or, Nat.shiftLeft_zero]
  have s08 : (mac 4 : ℕ) <<< 8 = (mac 4 : ℕ) * 256 := by rw [Nat.shiftLeft_eq]
  have s16 : (mac 3 : ℕ) <<< 16 = (mac 3 : ℕ) * 65536 := by rw [Nat.shiftLeft_eq]
  have s24 : (mac 2 : ℕ) <<< 24 = (mac 2 : ℕ) * 16777216 := by rw [Nat.shiftLeft_eq]
  have s32 : (mac 1 : ℕ) <<< 32 = (mac 1 : ℕ) * 4294967296 := by rw [Nat.shiftLeft_eq]
  have s40 : (mac 0 : ℕ) <<< 40 = (mac 0 : ℕ) * 1099511627776 := by rw [Nat.shiftLeft_eq]
  rw [s08, s16, s24, s32, s40]
  have h1 : (mac 5 : ℕ) ||| (mac 4 : ℕ) * 256 = (mac 4 : ℕ) * 256 + (mac 5 : ℕ) := by
    rw [Nat.lor_comm, lor_eq_add_of_lt _ _ 256 ⟨8, by norm_num⟩ b5]
  rw [h1]
  have h2 : (mac 4 : ℕ) * 256 + (mac 5 : ℕ) ||| (mac 3 : ℕ) * 65536 =
      (mac 3 : ℕ) * 65536 + ((mac 4 : ℕ) * 256 + (mac 5 : ℕ)) := by
    rw [Nat.lor_comm, lor_eq_add_of_lt _ _ 65536 ⟨16, by norm_num⟩ (by omega)]
  rw [h2]
  have h3 : (mac 3 : ℕ) * 65536 + ((mac 4 : ℕ) * 256 + (mac 5 : ℕ)) |||
        (mac 2 : ℕ) * 16777216 =
      (mac 2 : ℕ) * 16777216 + ((mac 3 : ℕ) * 65536 + ((mac 4 : ℕ) * 256 + (mac 5 : ℕ))) := by
    rw [Nat.lor_comm, lor_eq_add_of_lt _ _ 16777216 ⟨24, by norm_num⟩ (by omega)]
  rw [h3]
  have h4 : (mac 2 : ℕ) * 16777216 +
          ((mac 3 : ℕ) * 65536 + ((mac 4 : ℕ) * 256 + (mac 5 : ℕ))) |||
        (mac 1 : ℕ) * 4294967296 =
      (mac 1 : ℕ) * 4294967296 +
        ((mac 2 : ℕ) * 16777216 +
          ((mac 3 : ℕ) * 65536 + ((mac 4 : ℕ) * 256 + (mac 5 : ℕ)))) := by
    rw [Nat.lor_comm, lor_eq_add_of_lt _ _ 4294967296 ⟨32, by norm_num⟩ (by omega)]
  rw [h4]
  have h5 : (mac 1 : ℕ) * 4294967296 +
          ((mac 2 : ℕ) * 16777216 +
            ((mac 3 : ℕ) * 65536 + ((mac 4 : ℕ) * 256 + (mac 5 : ℕ)))) |||
        (mac 0 : ℕ) * 1099511627776 =
      (mac 0 : ℕ) * 1099511627776 +
        ((mac 1 : ℕ) * 4294967296 +
          ((mac 2 : ℕ) * 16777216 +
            ((mac 3 : ℕ) * 65536 + ((mac 4 : ℕ) * 256 + (mac 5 : ℕ))))) := by
    rw [Nat.lor_comm, lor_eq_add_of_lt _ _ 1099511627776 ⟨40, by norm_num⟩ (by omega)]
  rw [h5]
  ring

/-! ## Helper lemmas: formatting -/

/-- A value below 16 to the k has at most k hex digits. -/
theorem digitsAux16_length_le :
    ∀ (fuel n k : ℕ), 1 ≤ k → n < 16 ^ k → (digitsAux 16 fuel n).length ≤ k := by
  intro fuel
  induction fuel with
  | zero => intro n k hk hn; simp [digitsAux]
  | succ f ih =>
    intro n k hk hn
    by_cases h : n < 16
    · simp [digitsAux, h]
      omega
    · have hk2 : 2 ≤ k := by
        rcases Nat.lt_or_ge k 2 with h2 | h2
        · have hk1 : k = 1 := by omega
          subst hk1
          simp at hn
          omega
        · exact h2
      have hk16 : (16 : ℕ) ^ k = 16 ^ (k - 1) * 16 := by
        conv_lhs => rw [show k = (k - 1) + 1 by omega]
        rw [pow_succ]
      have hdiv : n / 16 < 16 ^ (k - 1) := by
        rw [Nat.div_lt_iff_lt_mul (show 0 < 16 by norm_num)]
        omega
      have hrec := ih (n / 16) (k - 1) (by omega) hdiv
      simp only [digitsAux, if_neg h, List.length_append, List.length_cons, List.length_nil]
      omega

/-- Every digit character for a single digit value is uppercase hex. -/
theorem digitCharUpper_hex : ∀ n, n < 16 → isHexUpper (digitCharUpper n) = true := by decide

/-- Every character produced by the hex digit renderer is an uppercase
hex digit. -/
theorem digitsAux16_all_hex : ∀ fuel n, ((digitsAux 16 fuel n).all isHexUpper) = true := by
  intro fuel
  induction fuel with
  | zero => intro n; simp [digitsAux]
  | succ f ih =>
    intro n
    by_cases h : n < 16
    · simp [digitsAux, h, digitCharUpper_hex n h]
    · simp only [digitsAux, if_neg h, List.all_append]
      rw [ih (n / 16)]
      simp [digitCharUpper_hex (n % 16) (Nat.mod_lt _ (by norm_num))]

/-- The `%0wX` rendering of a value below 16 to the w has exactly w
characters. -/
theorem fmt0X_length {w n : ℕ} (hw : 1 ≤ w) (hn : n < 16 ^ w) : (fmt0X w n).length = w := by
  have hlen := digitsAux16_length_le (n + 1) n w hw hn
  show (List.replicate (w - (digitsAux 16 (n + 1) n).length) '0' ++
      digitsAux 16 (n + 1) n).length = w
  rw [List.length_append, List.length_replicate]
  omega

/-- Every character of a `%0wX` rendering is an uppercase hex digit. -/
theorem fmt0X_all_hex (w n : ℕ) : ((fmt0X w n).toList.all isHexUpper) = true := by
  simp only [fmt0X, String.toList, String.data, List.all_append, Bool.and_eq_true]
  constructor
  · rw [List.all_eq_true]
    intro c hc
    rw [List.eq_of_mem_replicate hc]
    decide
  · exact digitsAux16_all_hex _ _

/-! ## Evaluation of the codec on the spec test vector -/

/-- uint8 cast of latitude 13.5: integral part 13. -/
theorem u8Q_sample_lat : u8Q (27 / 2) = 13 := by
  rw [u8Q, truncQ, if_pos (by norm_num : (0 : ℚ) ≤ 27 / 2)]
  have h : ⌊(27 : ℚ) / 2⌋ = 13 := by
    rw [Int.floor_eq_iff]
    norm_num
  rw [h]
  decide

/-- uint8 cast of longitude 100.5: integral part 100. -/
theorem u8Q_sample_lng : u8Q (201 / 2) = 100 := by
  rw [u8Q, truncQ, if_pos (by norm_num : (0 : ℚ) ≤ 201 / 2)]
  have h : ⌊(201 : ℚ) / 2⌋ = 100 := by
    rw [Int.floor_eq_iff]
    norm_num
  rw [h]
  decide

/-- uint8 cast of the value 50. -/
theorem u8Q_fifty : u8Q (50 : ℚ) = 50 := by
  rw [u8Q, truncQ, if_pos (by norm_num : (0 : ℚ) ≤ 50)]
  have h : ⌊(50 : ℚ)⌋ = 50 := by
    rw [Int.floor_eq_iff]
    norm_num
  rw [h]
  decide

/-- The source encoder on the sample lat 13.5, lon 100.5, battery 50:
bytes 0D 32 64 32 32. -/
theorem encode_sample_eval : _encode_payload sample_payload = 0x0D32643232 := by
  simp only [_encode_payload, sample_payload]
  rw [u8Q_sample_lat, u8Q_sample_lng]
  have harg1 : ((27 : ℚ) / 2 - ((13 : ℕ) : ℚ)) * 100 = 50 := by push_cast; norm_num
  have harg2 : ((201 : ℚ) / 2 - ((100 : ℕ) : ℚ)) * 100 = 50 := by push_cast; norm_num
  rw [harg1, harg2, u8Q_fifty]
  have hbat : u8_of_short 50 = 50 := by decide
  rw [hbat]
  decide

/-- The spec encoder on the same sample: bytes 93 33 C7 77 32. -/
theorem encode_spec_sample_eval : encode_spec sample_payload = 0x9333C77732 := by
  simp only [encode_spec, sample_payload]
  have h1 : roundQ ((27 / 2 + 90) / 180 * 65535) = 37683 := by
    rw [roundQ, Int.floor_eq_iff]
    norm_num
  have h2 : roundQ ((201 / 2 + 180) / 360 * 65535) = 51063 := by
    rw [roundQ, Int.floor_eq_iff]
    norm_num
  rw [h1, h2]
  decide

/-! ## Claim C1 -/

/-- C1, counterexample: on the sample lat 13.5, lon 100.5, battery 50
the source encoder `_encode_payload` does not produce the claimed bytes
93 33 C7 8A 32 (it produces 0D 32 64 32 32, hex "0D32643232"); moreover
even the scaled-uint16 formula of the claim yields 93 33 C7 77 32, not
93 33 C7 8A 32, so the claimed vector is also internally inconsistent. -/
theorem c1_encode_vector_counterexample :
    _encode_payload sample_payload ≠ 0x9333C78A32 ∧
    fmt0X 10 (_encode_payload sample_payload) ≠ "9333C78A32" ∧
    _encode_payload sample_payload = 0x0D32643232 ∧
    fmt0X 10 (_encode_payload sample_payload) = "0D32643232" ∧
    encode_spec sample_payload = 0x9333C77732 ∧
    encode_spec sample_payload ≠ 0x9333C78A32 := by
  refine ⟨?_, ?_, encode_sample_eval, ?_, encode_spec_sample_eval, ?_⟩
  · rw [encode_sample_eval]
    decide
  · rw [encode_sample_eval]
    decide
  · rw [encode_sample_eval]
    decide
  · rw [encode_spec_sample_eval]
    decide

/-- C1 (amended): the payload encoder maps a sample to 5 bytes laid out
big-endian as [latitude integral part as uint8, latitude fractional
part times 100 as uint8, longitude integral part, longitude fractional
part times 100, battery percentage as uint8]; on the sample lat 13.5,
lon 100.5, battery 50 it yields the bytes 0D 32 64 32 32 and the hex
text "0D32643232". -/
theorem c1_encode_layout (p : payload_t) :
    _encode_payload p =
      u8Q p.latitude * 4294967296 +
        u8Q ((p.latitude - (u8Q p.latitude : ℚ)) * 100) * 16777216 +
        u8Q p.longitude * 65536 +
        u8Q ((p.longitude - (u8Q p.longitude : ℚ)) * 100) * 256 +
        u8_of_short p.battery_percentage ∧
    _encode_payload p / 4294967296 = u8Q p.latitude ∧
    _encode_payload p / 16777216 % 256 =
      u8Q ((p.latitude - (u8Q p.latitude : ℚ)) * 100) ∧
    _encode_payload p / 65536 % 256 = u8Q p.longitude ∧
    _encode_payload p / 256 % 256 =
      u8Q ((p.longitude - (u8Q p.longitude : ℚ)) * 100) ∧
    _encode_payload p % 256 = u8_of_short p.battery_percentage ∧
    _encode_payload sample_payload = 0x0D32643232 ∧
    fmt0X 10 (_encode_payload sample_payload) = "0D32643232" := by
  have ha := u8Q_lt p.latitude
  have hb := u8Q_lt ((p.latitude - (u8Q p.latitude : ℚ)) * 100)
  have hc := u8Q_lt p.longitude
  have hd := u8Q_lt ((p.longitude - (u8Q p.longitude : ℚ)) * 100)
  have he := u8_of_short_lt p.battery_percentage
  have hsum : _encode_payload p =
      u8Q p.latitude * 4294967296 +
        u8Q ((p.latitude - (u8Q p.latitude : ℚ)) * 100) * 16777216 +
        u8Q p.longitude * 65536 +
        u8Q ((p.longitude - (u8Q p.longitude : ℚ)) * 100) * 256 +
        u8_of_short p.battery_percentage := by
    simp only [_encode_payload]
    rw [pack5_eq _ _ _ _ _ ha hb hc hd he]
    have h40 : (0xFFFFFFFFFF : ℕ) = 2 ^ 40 - 1 := by norm_num
    rw [h40, Nat.and_pow_two_sub_one_eq_mod]
    apply Nat.mod_eq_of_lt
    have h2p : (2 : ℕ) ^ 40 = 1099511627776 := by norm_num
    rw [h2p]
    omega
  refine ⟨hsum, ?_, ?_, ?_, ?_, ?_, encode_sample_eval, ?_⟩
  · rw [hsum]; omega
  · rw [hsum]; omega
  · rw [hsum]; omega
  · rw [hsum]; omega
  · rw [hsum]; omega
  · rw [encode_sample_eval]
    decide

/-! ## Claim C2 -/

/-- C2: applying the spec decode to the output of the source encoder on
the in-range sample lat 13.5, lon 100.5, battery 50 reconstructs the
battery exactly but misses latitude and longitude by far more than one
quantization step: the claimed round-trip bound fails on the code. -/
theorem c2_roundtrip_violation :
    (decode_spec (_encode_payload sample_payload)).2.2 = 50 ∧
    |(decode_spec (_encode_payload sample_payload)).1 - 27 / 2| > 180 / 65535 ∧
    |(decode_spec (_encode_payload sample_payload)).2.1 - 201 / 2| > 360 / 65535 := by
  rw [encode_sample_eval]
  refine ⟨?_, ?_, ?_⟩
  · simp only [decode_spec]
    norm_num
  · simp only [decode_spec]
    have h : (0x0D32643232 : ℕ) / 2 ^ 24 % 2 ^ 16 = 3378 := by norm_num
    rw [h, abs_sub_comm, abs_of_pos (by norm_num)]
    norm_num
  · simp only [decode_spec]
    have h : (0x0D32643232 : ℕ) / 2 ^ 8 % 2 ^ 16 = 25650 := by norm_num
    rw [h, abs_sub_comm, abs_of_pos (by norm_num)]
    norm_num

/-! ## Claim C9 -/

/-- C9: for every telemetry sample (and any device id and calendar
time), the payload field placed in the envelope by
_create_json_payload is exactly 10 characters, all of them uppercase
hexadecimal digits: the encoded value is confined to 40 bits by the
final mask, so the "%010llX" rendering never exceeds or falls short of
10 characters. -/
theorem c9_payload_hex_well_formed (device_str : String) (p : payload_t) (tm_s : Tm) :
    ((_create_json_payload device_str p tm_s).payload).length = 10 ∧
    (((_create_json_payload device_str p tm_s).payload).toList.all isHexUpper) = true := by
  have henc : _encode_payload p < 16 ^ 10 := by
    simp only [_encode_payload]
    have h40 : (0xFFFFFFFFFF : ℕ) = 2 ^ 40 - 1 := by norm_num
    rw [h40, Nat.and_pow_two_sub_one_eq_mod]
    have h2p : (16 : ℕ) ^ 10 = 2 ^ 40 := by norm_num
    rw [h2p]
    exact Nat.mod_lt _ (by positivity)
  constructor
  · show (fmt0X 10 (_encode_payload p)).length = 10
    exact fmt0X_length (by norm_num) henc
  · show ((fmt0X 10 (_encode_payload p)).toList.all isHexUpper) = true
    exact fmt0X_all_hex _ _

/-! ## Claim C6 -/

/-- C6: tc_get_device_str treats the 6 hardware-address bytes as a
big-endian 48-bit value, keeps the low 24 bits (the last 3 address
bytes in order), and formats them as "ESP32_" followed by exactly 6
uppercase hex digits; address 00:11:22:33:44:55 yields
"ESP32_334455". -/
theorem c6_device_id_derivation (mac : Fin 6 → Fin 256) :
    tc_get_device_str mac =
      "ESP32_" ++ fmt0X 6 ((mac 3 : ℕ) * 65536 + (mac 4 : ℕ) * 256 + (mac 5 : ℕ)) ∧
    (fmt0X 6 ((mac 3 : ℕ) * 65536 + (mac 4 : ℕ) * 256 + (mac 5 : ℕ))).length = 6 ∧
    ((fmt0X 6 ((mac 3 : ℕ) * 65536 + (mac 4 : ℕ) * 256 + (mac 5 : ℕ))).toList.all
        isHexUpper) = true ∧
    tc_get_device_str sample_mac = "ESP32_334455" := by
  have b3 := (mac 3).isLt
  have b4 := (mac 4).isLt
  have b5 := (mac 5).isLt
  have hmask : tc_device_id mac &&& 0xFFFFFF =
      (mac 3 : ℕ) * 65536 + (mac 4 : ℕ) * 256 + (mac 5 : ℕ) := by
    rw [tc_device_id_eq]
    have h24 : (0xFFFFFF : ℕ) = 2 ^ 24 - 1 := by norm_num
    rw [h24, Nat.and_pow_two_sub_one_eq_mod]
    have h2p : (2 : ℕ) ^ 24 = 16777216 := by norm_num
    rw [h2p]
    omega
  refine ⟨?_, ?_, ?_, ?_⟩
  · rw [tc_get_device_str, hmask]
  · exact fmt0X_length (by norm_num) (by
      have h16 : (16 : ℕ) ^ 6 = 16777216 := by norm_num
      rw [h16]
      omega)
  · exact fmt0X_all_hex _ _
  · decide

/-! ## Claim C3 -/

/-- C3: for both transport variants, publishing while the transport is
not ready fails with ESP_ERR_INVALID_STATE (the NotReady error) and
nothing is handed to the transport: tc_mqtt_publish_telemetry refuses
unless the MQTT session state is connected (SessionActive), and
tc_http_publish_telemetry refuses unless the wifi link state is
connected.  The empty sent list and the unmodified context mean the
message is dropped with no queue and no retry. -/
theorem c3_publish_requires_ready :
    (∀ (s : NetContext) (topic : String) (data : Envelope),
        s.mqtt_state ≠ mqtt_status_t.connected →
        tc_mqtt_publish_telemetry s topic data = (EspErr.invalidState, [])) ∧
    (∀ (s : NetContext) (data : Envelope),
        s.wifi_status ≠ wifi_status_t.connected →
        tc_http_publish_telemetry s data = (EspErr.invalidState, [])) := by
  constructor
  · intro s topic data h
    simp [tc_mqtt_publish_telemetry, h]
  · intro s data h
    simp [tc_http_publish_telemetry, h]

/-- C3 witness: the initial context is not ready for either transport
and both publishes are refused there with nothing sent. -/
theorem c3_publish_requires_ready_witness :
    initial_context.mqtt_state ≠ mqtt_status_t.connected ∧
    initial_context.wifi_status ≠ wifi_status_t.connected ∧
    tc_mqtt_publish_telemetry initial_context "tc-bn/telemetry/ESP32_334455"
        (⟨"ESP32_334455", "0D32643232", "2025-10-12", "00:00:00"⟩ : Envelope) =
      (EspErr.invalidState, []) ∧
    tc_http_publish_telemetry initial_context
        (⟨"ESP32_334455", "0D32643232", "2025-10-12", "00:00:00"⟩ : Envelope) =
      (EspErr.invalidState, []) :=
  ⟨by decide, by decide,
    c3_publish_requires_ready.1 initial_context "tc-bn/telemetry/ESP32_334455"
      ⟨"ESP32_334455", "0D32643232", "2025-10-12", "00:00:00"⟩ (by decide),
    c3_publish_requires_ready.2 initial_context
      ⟨"ESP32_334455", "0D32643232", "2025-10-12", "00:00:00"⟩ (by decide)⟩

/-! ## Claim C4 -/

/-- C4: a disconnect while the link is connected (the wifi handler
receives WIFI_EVENT_STA_DISCONNECTED and, for the persistent transport,
the MQTT client follows with MQTT_EVENT_DISCONNECTED) leaves the link
state connecting, the retry counter incremented by one, the retry timer
re-armed, and the session state forced back to MQTT_STATE_INIT, so a
subsequent publish on the stale session is rejected with
ESP_ERR_INVALID_STATE and nothing is sent. -/
theorem c4_disconnect_while_connected (s : NetContext)
    (h : s.wifi_status = wifi_status_t.connected) (topic : String) (data : Envelope) :
    (mqtt_event_handler (__wifi_event_sta_handler true s WifiEvent.staDisconnected)
        MqttEvent.disconnected).wifi_status = wifi_status_t.connecting ∧
    (mqtt_event_handler (__wifi_event_sta_handler true s WifiEvent.staDisconnected)
        MqttEvent.disconnected).connect_retries = s.connect_retries + 1 ∧
    (mqtt_event_handler (__wifi_event_sta_handler true s WifiEvent.staDisconnected)
        MqttEvent.disconnected).connect_timer =
      some (__wifi_get_next_connect (s.connect_retries + 1)) ∧
    (mqtt_event_handler (__wifi_event_sta_handler true s WifiEvent.staDisconnected)
        MqttEvent.disconnected).mqtt_state = mqtt_status_t.init ∧
    tc_mqtt_publish_telemetry
        (mqtt_event_handler (__wifi_event_sta_handler true s WifiEvent.staDisconnected)
          MqttEvent.disconnected) topic data =
      (EspErr.invalidState, []) := by
  refine ⟨rfl, rfl, rfl, rfl, ?_⟩
  simp [tc_mqtt_publish_telemetry, mqtt_event_handler, __wifi_event_sta_handler]

/-- C4 witness: the transition evaluated on a concrete connected
context. -/
theorem c4_disconnect_while_connected_witness :
    (mqtt_event_handler
        (__wifi_event_sta_handler true
          ({ wifi_status := .connected, connect_retries := 0, sta_ip := "192.168.1.7",
             connect_timer := some 0, mqtt_state := .connected, sntp_started := true,
             established_count := 1 } : NetContext) WifiEvent.staDisconnected)
        MqttEvent.disconnected).wifi_status = wifi_status_t.connecting ∧
    (mqtt_event_handler
        (__wifi_event_sta_handler true
          ({ wifi_status := .connected, connect_retries := 0, sta_ip := "192.168.1.7",
             connect_timer := some 0, mqtt_state := .connected, sntp_started := true,
             established_count := 1 } : NetContext) WifiEvent.staDisconnected)
        MqttEvent.disconnected).connect_retries = 0 + 1 ∧
    (mqtt_event_handler
        (__wifi_event_sta_handler true
          ({ wifi_status := .connected, connect_retries := 0, sta_ip := "192.168.1.7",
             connect_timer := some 0, mqtt_state := .connected, sntp_started := true,
             established_count := 1 } : NetContext) WifiEvent.staDisconnected)
        MqttEvent.disconnected).connect_timer = some (__wifi_get_next_connect (0 + 1)) ∧
    (mqtt_event_handler
        (__wifi_event_sta_handler true
          ({ wifi_status := .connected, connect_retries := 0, sta_ip := "192.168.1.7",
             connect_timer := some 0, mqtt_state := .connected, sntp_started := true,
             established_count := 1 } : NetContext) WifiEvent.staDisconnected)
        MqttEvent.disconnected).mqtt_state = mqtt_status_t.init ∧
    tc_mqtt_publish_telemetry
        (mqtt_event_handler
          (__wifi_event_sta_handler true
            ({ wifi_status := .connected, connect_retries := 0, sta_ip := "192.168.1.7",
               connect_timer := some 0, mqtt_state := .connected, sntp_started := true,
               established_count := 1 } : NetContext) WifiEvent.staDisconnected)
          MqttEvent.disconnected) "tc-bn/telemetry/ESP32_334455"
        (⟨"ESP32_334455", "0D32643232", "2025-10-12", "00:00:00"⟩ : Envelope) =
      (EspErr.invalidState, []) :=
  c4_disconnect_while_connected
    { wifi_status := .connected, connect_retries := 0, sta_ip := "192.168.1.7",
      connect_timer := some 0, mqtt_state := .connected, sntp_started := true,
      established_count := 1 } rfl "tc-bn/telemetry/ESP32_334455"
    ⟨"ESP32_334455", "0D32643232", "2025-10-12", "00:00:00"⟩

/-! ## Claim C7 -/

/-- C7: the association-retry backoff of __wifi_get_next_connect is
linear in the retry counter, counter times 2 seconds (the function
returns microseconds): counts 0, 1, 2, 3 give 0, 2, 4 and 6 seconds,
each retry adds a constant 2 seconds, and the wifi disconnect handler
re-arms the timer with exactly this delay for the incremented counter. -/
theorem c7_retry_backoff_linear :
    (∀ n, __wifi_get_next_connect n = n * 2 * 1000000) ∧
    (∀ (mqtt_enabled : Bool) (s : NetContext),
        (__wifi_event_sta_handler mqtt_enabled s WifiEvent.staDisconnected).connect_timer =
          some (__wifi_get_next_connect (s.connect_retries + 1))) ∧
    __wifi_get_next_connect 0 = 0 ∧
    __wifi_get_next_connect 1 = 2 * 1000000 ∧
    __wifi_get_next_connect 2 = 4 * 1000000 ∧
    __wifi_get_next_connect 3 = 6 * 1000000 ∧
    (∀ n, __wifi_get_next_connect (n + 1) = __wifi_get_next_connect n + 2 * 1000000) := by
  refine ⟨fun n => rfl, fun b s => rfl, rfl, rfl, rfl, rfl, fun n => ?_⟩
  simp only [__wifi_get_next_connect]
  ring

/-- C7 witness: the delay at retry count 3 is 6 seconds. -/
theorem c7_retry_backoff_linear_witness : __wifi_get_next_connect 3 = 6 * 1000000 :=
  c7_retry_backoff_linear.2.2.2.2.2.1

/-! ## Claim C8 -/

/-- C8: if a sensor read fails on a tick (VERIFY_SUCCESS makes loop
return the error before anything is encoded), the tick hands nothing to
the transport, the failure is reported through the return code that
app_main logs, and the while-true loop simply proceeds with the
remaining ticks: a sensor failure is never fatal to the loop. -/
theorem c8_sensor_failure_nonfatal (mqtt_enabled : Bool) (net : NetContext)
    (device_str : String) (t : TickInput) (ts : List TickInput)
    (h : t.gps = none ∨ t.battery = none) :
    loop mqtt_enabled net device_str t = (EspErr.fail, []) ∧
    runTicks mqtt_enabled net device_str (t :: ts) =
      runTicks mqtt_enabled net device_str ts := by
  have hl : loop mqtt_enabled net device_str t = (EspErr.fail, []) := by
    rcases h with h | h
    · simp [loop, h]
    · cases hg : t.gps with
      | none => simp [loop, hg]
      | some v =>
        cases v with
        | mk la lo => simp [loop, hg, h]
  exact ⟨hl, by simp [runTicks, hl]⟩

/-- C8 witness: a tick whose location read fails produces no publish and
is skipped, with the remaining (empty) schedule unaffected. -/
theorem c8_sensor_failure_nonfatal_witness :
    loop true initial_context "ESP32_334455"
        { gps := none, battery := some 50, timestamp := 0,
          tm_s := ⟨125, 9, 12, 0, 0, 0⟩ } = (EspErr.fail, []) ∧
    runTicks true initial_context "ESP32_334455"
        [{ gps := none, battery := some 50, timestamp := 0,
           tm_s := ⟨125, 9, 12, 0, 0, 0⟩ }] =
      runTicks true initial_context "ESP32_334455" [] :=
  c8_sensor_failure_nonfatal true initial_context "ESP32_334455"
    { gps := none, battery := some 50, timestamp := 0, tm_s := ⟨125, 9, 12, 0, 0, 0⟩ }
    [] (Or.inl rfl)

/-! ## Claim C5 -/

/-- C5: the telemetry startup blocks on the one-shot establishment
signal with a bounded wait of 300 seconds before its first tick: if the
signal is released within the bound, startup proceeds to the sampling
loop (producing exactly the messages of the ticks and invoking no
restart); if the signal arrives too late or never, the process performs
a full restart, invoked exactly once, and no tick runs.  The gate is
modelled from the spec because the current main wiring it is not in the
source tree. -/
theorem c5_establishment_gate (mqtt_enabled : Bool) (net : NetContext) (device_str : String)
    (ticks : List TickInput) :
    (∀ t, t ≤ establishTimeoutSeconds →
        app_start mqtt_enabled net device_str (some t) ticks =
          (StartupOutcome.running (runTicks mqtt_enabled net device_str ticks), 0)) ∧
    (∀ t, establishTimeoutSeconds < t →
        app_start mqtt_enabled net device_str (some t) ticks =
          (StartupOutcome.restarted, 1)) ∧
    app_start mqtt_enabled net device_str none ticks = (StartupOutcome.restarted, 1) ∧
    establishTimeoutSeconds = 300 := by
  refine ⟨fun t ht => ?_, fun t ht => ?_, rfl, rfl⟩
  · simp [app_start, ht]
  · simp [app_start, Nat.not_le.mpr ht]

/-- C5 witness: a signal released at second 1 starts the loop with no
restart; a signal released at second 301 restarts exactly once. -/
theorem c5_establishment_gate_witness :
    app_start true initial_context "ESP32_334455" (some 1) [] =
      (StartupOutcome.running (runTicks true initial_context "ESP32_334455" []), 0) ∧
    app_start true initial_context "ESP32_334455" (some 301) [] =
      (StartupOutcome.restarted, 1) :=
  ⟨(c5_establishment_gate true initial_context "ESP32_334455" []).1 1 (by decide),
   (c5_establishment_gate true initial_context "ESP32_334455" []).2.1 301 (by decide)⟩

/-! ## Claim C10 -/

/-- In every reachable context, a connected link implies a zero retry
counter: the only transition entering connected resets the counter. -/
theorem reachable_connected_retries_zero {mqtt_enabled : Bool} {s : NetContext}
    (h : Reachable mqtt_enabled s) :
    s.wifi_status = wifi_status_t.connected → s.connect_retries = 0 := by
  induction h with
  | init => intro _; rfl
  | start s' hs ih =>
    intro hc
    by_cases hb : s'.wifi_status ≠ wifi_status_t.uninitd
    · simp [tc_network_start, hb] at hc ⊢
      exact ih hc
    · simp [tc_network_start, hb] at hc
  | step s' e hs ih =>
    intro hc
    cases e with
    | wifi we =>
      cases we with
      | staStart => simp [net_step, __wifi_event_sta_handler] at hc
      | staDisconnected => simp [net_step, __wifi_event_sta_handler] at hc
      | gotIp ip =>
        cases mqtt_enabled <;> simp [net_step, __wifi_event_sta_handler]
    | mqttEvt me =>
      by_cases hb : mqtt_enabled
      · subst hb
        cases me with
        | connected =>
          simp [net_step, mqtt_event_handler] at hc ⊢
          exact ih hc
        | disconnected =>
          simp [net_step, mqtt_event_handler] at hc ⊢
          exact ih hc
        | other =>
          simp [net_step, mqtt_event_handler] at hc ⊢
          exact ih hc
      · simp [net_step, hb] at hc ⊢
        exact ih hc

/-- C10: in every context reachable by the network event handlers from
the initial context, a connected link state implies a zero retry
counter; moreover any single wifi handler step that increases the
counter leaves the link connecting, and any step whose result is
connected has a zero counter in its result. -/
theorem c10_connected_retries_zero (mqtt_enabled : Bool) (s : NetContext)
    (h : Reachable mqtt_enabled s) :
    (s.wifi_status = wifi_status_t.connected → s.connect_retries = 0) ∧
    (∀ e, s.connect_retries < (__wifi_event_sta_handler mqtt_enabled s e).connect_retries →
        (__wifi_event_sta_handler mqtt_enabled s e).wifi_status = wifi_status_t.connecting) ∧
    (∀ e, (__wifi_event_sta_handler mqtt_enabled s e).wifi_status = wifi_status_t.connected →
        (__wifi_event_sta_handler mqtt_enabled s e).connect_retries = 0) := by
  refine ⟨reachable_connected_retries_zero h, ?_, ?_⟩
  · intro e hlt
    cases e with
    | staStart => simp [__wifi_event_sta_handler] at hlt
    | staDisconnected => rfl
    | gotIp ip =>
      cases mqtt_enabled <;> simp [__wifi_event_sta_handler] at hlt
  · intro e hc
    cases e with
    | staStart => simp [__wifi_event_sta_handler] at hc
    | staDisconnected => simp [__wifi_event_sta_handler] at hc
    | gotIp ip =>
      cases mqtt_enabled <;> simp [__wifi_event_sta_handler]

/-- C10 witness: the invariant evaluated on the concrete reachable
context obtained by start, radio start and address acquisition, which
is connected with a zero counter. -/
theorem c10_connected_retries_zero_witness :
    (net_step true
        (net_step true (tc_network_start true initial_context).2
          (NetEvent.wifi WifiEvent.staStart))
        (NetEvent.wifi (WifiEvent.gotIp "192.168.1.7"))).wifi_status =
      wifi_status_t.connected ∧
    (net_step true
        (net_step true (tc_network_start true initial_context).2
          (NetEvent.wifi WifiEvent.staStart))
        (NetEvent.wifi (WifiEvent.gotIp "192.168.1.7"))).connect_retries = 0 :=
  ⟨by decide,
   (c10_connected_retries_zero true _
      (Reachable.step _ _ (Reachable.step _ _
        (Reachable.start _ Reachable.init)))).1 (by decide)⟩

/-- C1 (amended) witness: the layout theorem evaluated on the concrete
sample. -/
theorem c1_encode_layout_witness : _encode_payload sample_payload = 0x0D32643232 :=
  (c1_encode_layout sample_payload).2.2.2.2.2.2.1

/-- C6 witness: the identity derivation evaluated on the concrete
address 00:11:22:33:44:55. -/
theorem c6_device_id_derivation_witness : tc_get_device_str sample_mac = "ESP32_334455" :=
  (c6_device_id_derivation sample_mac).2.2.2

/-- C9 witness: the payload field of a concrete envelope has exactly 10
characters. -/
theorem c9_payload_hex_well_formed_witness :
    ((_create_json_payload "ESP32_334455" sample_payload ⟨125, 9, 12, 0, 0, 0⟩).payload).length =
      10 :=
  (c9_payload_hex_well_formed "ESP32_334455" sample_payload ⟨125, 9, 12, 0, 0, 0⟩).1
